import Mathlib

/-!
Verification of the cdkless deferred builder core (`src/lambda-builder.ts`,
`src/base-stack.ts`) against its natural-language specification.

The TypeScript `LambdaBuilder` class is shallowly embedded as a Lean state
machine.  Mutation of `this` becomes explicit state passing on a `Builder`
record; the CDK/AWS collaborators (function construction, event-source
subscription, permission grants, route registration) are modelled as an
append-only trace of `Event`s inside a `World` record, together with the
module-level mutable `sharedApi` variable and a fresh-handle supply.
Collaborator payloads that the builder never inspects (SNS/SQS options,
bundling, runtimes, VPC config, tags, layers, sizing scalars) are opaque to
every claim and are abbreviated to their identifying string descriptor.
Collaborator calls may throw; this is modelled by a failure oracle
`fail : Event → Bool` threaded through `build`.
-/

deriving instance DecidableEq for Except

namespace Cdkless

/-- Identifying descriptor of a stored SNS trigger configuration
(`SnsConfig.topicArn`; the optional subscription options are
collaborator-opaque). -/
abbrev SnsConfig := String

/-- Identifying descriptor of a stored SQS trigger configuration
(`SqsConfig.queueArn`). -/
abbrev SqsConfig := String

/-- Identifying descriptor of a stored S3 trigger configuration
(`S3Config.bucketArn`). -/
abbrev S3Config := String

/-- Identifying descriptor of a stored IAM policy configuration
(`PolicyConfig.arn`; the action list and options are collaborator-opaque). -/
abbrev PolicyConfig := String

/-- Identifying descriptor of a stored EventBridge rule configuration. -/
abbrev EventBridgeRuleConfig := String

/-- Identifying descriptor of a stored MSK trigger configuration. -/
abbrev MSKConfig := String

/-- Identifying descriptor of a stored self-managed Kafka trigger
configuration. -/
abbrev SMKConfig := String

/-- Identifying descriptor of a stored DynamoDB streams trigger
configuration (`DynamoStreamsConfig.streamArn`). -/
abbrev DynamoStreamsConfig := String

/-- One observable collaborator call made by the builder, in the vocabulary
of the spec's §6 external interfaces.  `provisionPrimaryResource` records the
derived resource name and the environment mapping passed to the function
construct; the subscribe/grant/rule events record the descriptor of the
fragment being applied; `registerRoute` records the shared router handle it
was registered against. -/
inductive Event where
  | provisionPrimaryResource (name : String) (env : List (String × String))
  | subscribeSns (arn : String)
  | subscribeSqs (arn : String)
  | subscribeS3 (arn : String)
  | grantPermission (arn : String)
  | grantTablePermissions (arn : String)
  | scheduleRule (descriptor : String)
  | subscribeMsk (descriptor : String)
  | subscribeSmk (descriptor : String)
  | subscribeDynamoStreams (arn : String)
  | createSharedRouter (scopeId : Nat)
  | registerRoute (api : Nat) (method : String) (path : String) (name : String)
deriving DecidableEq, Repr

/-- Errors that `build()` can raise: the configuration error thrown by
`createNodejsFunction` when the handler path is empty, or an exception
propagated from a collaborator call. -/
inductive BuildError where
  | handlerPathNotDefined
  | collaborator (e : Event)
deriving DecidableEq, Repr

/-- JS object-spread merge `\x7b...old, ...new\x7d` on string-keyed records:
keys of `old` keep their position with values overridden by `new` where
present; keys only in `new` are appended in order. -/
def mergeEnv (old new : List (String × String)) : List (String × String) :=
  (old.map fun kv =>
    match new.lookup kv.1 with
    | some v => (kv.1, v)
    | none => kv)
  ++ new.filter fun kv => (old.lookup kv.1).isNone

/-- Splits a character list at every `/`, keeping empty segments, exactly as
the JS `String.prototype.split("/")` does. -/
def splitSlash : List Char → List Char → List String
  | [], acc => [String.mk acc.reverse]
  | c :: cs, acc =>
    if c = '/' then String.mk acc.reverse :: splitSlash cs []
    else splitSlash cs (c :: acc)

/-- `handlerPath.split("/").pop() || ""` — the last `/`-separated segment of
the handler path, used to derive the resource name.  (`pop()` on the
nonempty split result is its last element; it is replaced by `""` when it is
the empty, falsy, string, which leaves it unchanged.) -/
def lastSegment (s : String) : String :=
  ((splitSlash s.data []).getLast?).getD ""

/-- The mutable state of one `LambdaBuilder` instance.  Fields that no claim
observes (sizing scalars, log retention, bundling, tags, layers, VPC and
role configuration, the authorizer) are collaborator-opaque and omitted. -/
structure Builder where
  /-- Identity of the `props.scope` construct the builder was created in. -/
  scopeId : Nat
  /-- `handlerPath`, fixed at construction. -/
  handlerPath : String
  /-- `resourceName`, the derived identity of the primary resource. -/
  resourceName : String
  /-- `environmentVars`, initialised with the `STAGE` entry. -/
  environmentVars : List (String × String)
  /-- `method`, set by the routing methods (`get`/`post`/...). -/
  method? : Option String
  /-- `path`, set by the routing methods. -/
  path? : Option String
  /-- `isBuilt` flag. -/
  isBuilt : Bool
  /-- `lambda`, the cached primary resource handle once assigned. -/
  lambda : Option Nat
  snsConfigs : List SnsConfig
  sqsConfigs : List SqsConfig
  s3Configs : List S3Config
  policyConfigs : List PolicyConfig
  tableArns : List String
  eventBridgeRuleConfigs : List EventBridgeRuleConfig
  mskConfigs : List MSKConfig
  smkConfigs : List SMKConfig
  dynamoStreamsConfigs : List DynamoStreamsConfig
deriving DecidableEq, Repr

/-- Process-wide state: the module-level `let sharedApi` variable, a supply
of fresh collaborator handles, and the trace of collaborator calls performed
so far. -/
structure World where
  sharedApi : Option Nat
  nextId : Nat
  trace : List Event
deriving DecidableEq, Repr

/-- The initial world of a fresh process: no shared API yet, nothing done. -/
def initWorld : World := { sharedApi := none, nextId := 0, trace := [] }

/-- `LambdaBuilderProps`: the construct scope and the handler path. -/
structure LambdaBuilderProps where
  scopeId : Nat
  handler : String
deriving DecidableEq, Repr

/-- The `LambdaBuilder` constructor body (before the `Proxy` wrapping):
stores the handler path, derives `resourceName` from its last segment,
initialises `environmentVars` with the `STAGE` entry (`stage` stands for
`process.env.STAGE || ""`), and runs `applyDefaultLambdaOptions`, which
merges `defaultLambdaOptions.environment` of the stack settings into the
environment when present (`defaultEnv`). -/
def initBuilder (props : LambdaBuilderProps) (stage : String)
    (defaultEnv : Option (List (String × String))) : Builder :=
  { scopeId := props.scopeId
    handlerPath := props.handler
    resourceName := lastSegment props.handler
    environmentVars :=
      match defaultEnv with
      | some es => mergeEnv [("STAGE", stage)] es
      | none => [("STAGE", stage)]
    method? := none
    path? := none
    isBuilt := false
    lambda := none
    snsConfigs := []
    sqsConfigs := []
    s3Configs := []
    policyConfigs := []
    tableArns := []
    eventBridgeRuleConfigs := []
    mskConfigs := []
    smkConfigs := []
    dynamoStreamsConfigs := [] }

/-- A collaborator-failure oracle that never fails. -/
def noFail : Event → Bool := fun _ => false

/-- Perform a list of collaborator calls in order, appending each successful
call to the trace and aborting (with the partial trace kept — thrown
exceptions do not roll anything back) at the first call the oracle fails. -/
def emitAll (fail : Event → Bool) : List Event → World →
    World × Except BuildError Unit
  | [], w => (w, .ok ())
  | e :: es, w =>
    if fail e then (w, .error (.collaborator e))
    else emitAll fail es { w with trace := w.trace ++ [e] }

/-- `getOrCreateSharedApi`: if the module-level `sharedApi` is set, return
it; otherwise construct the `ApiBuilder` (one `createSharedRouter`
collaborator call, parented to this builder's scope), store it in the
module-level variable and return it.  Note the variable is global to the
process and not keyed by the deployment scope. -/
def getOrCreateSharedApi (b : Builder) (w : World) : Nat × World :=
  match w.sharedApi with
  | some a => (a, w)
  | none =>
    (w.nextId,
     { w with
        sharedApi := some w.nextId
        nextId := w.nextId + 1
        trace := w.trace ++ [.createSharedRouter b.scopeId] })

/-- Collaborator calls of `applySnsTriggers`: one subscription per stored
SNS configuration, in insertion order. -/
def snsEvents (b : Builder) : List Event := b.snsConfigs.map .subscribeSns

/-- Collaborator calls of `applySqsTriggers`. -/
def sqsEvents (b : Builder) : List Event := b.sqsConfigs.map .subscribeSqs

/-- Collaborator calls of `applyS3Triggers`. -/
def s3Events (b : Builder) : List Event := b.s3Configs.map .subscribeS3

/-- Collaborator calls of `applyPolicies`. -/
def policyEvents (b : Builder) : List Event :=
  b.policyConfigs.map .grantPermission

/-- Collaborator calls of `applyTablePermissions`. -/
def tableEvents (b : Builder) : List Event :=
  b.tableArns.map .grantTablePermissions

/-- Collaborator calls of `applyEventBridgeRuleTriggers`. -/
def ruleEvents (b : Builder) : List Event :=
  b.eventBridgeRuleConfigs.map .scheduleRule

/-- Collaborator calls of `applyMSKTriggers`. -/
def mskEvents (b : Builder) : List Event := b.mskConfigs.map .subscribeMsk

/-- Collaborator calls of `applySMKTriggers`. -/
def smkEvents (b : Builder) : List Event := b.smkConfigs.map .subscribeSmk

/-- Collaborator calls of `applyDynamoStreamsTriggers`. -/
def dynamoEvents (b : Builder) : List Event :=
  b.dynamoStreamsConfigs.map .subscribeDynamoStreams

/-- The fragment-application collaborator calls of `build()`, in the exact
order of the apply methods it invokes (lines 1092-1100 of
`lambda-builder.ts`): SNS, SQS, S3, policies, table permissions, EventBridge
rules, MSK, SMK, DynamoDB streams. -/
def fragEvents (b : Builder) : List Event :=
  snsEvents b ++ sqsEvents b ++ s3Events b ++ policyEvents b ++
    tableEvents b ++ ruleEvents b ++ mskEvents b ++ smkEvents b ++
    dynamoEvents b

/-- The `provisionPrimaryResource` call performed by
`createNodejsFunction`, carrying the derived name and the environment
mapping handed to the function construct. -/
def provisionEvent (b : Builder) : Event :=
  .provisionPrimaryResource b.resourceName b.environmentVars

/-- `build()`.  Mirrors the source line by line: return the cached handle
when `isBuilt`; otherwise create the function (`createNodejsFunction`
throws when the handler path is empty, and otherwise provisions the primary
resource and assigns `this.lambda`), apply all stored fragment
configurations, then — if both `method` and `path` are set and non-empty —
obtain the shared API and register the route, and finally set `isBuilt`.
State mutated before a thrown collaborator error is kept, as in JS. -/
def build (fail : Event → Bool) (b : Builder) (w : World) :
    Builder × World × Except BuildError (Option Nat) :=
  if b.isBuilt then (b, w, .ok b.lambda)
  else if b.handlerPath = "" then (b, w, .error .handlerPathNotDefined)
  else
    let prov := provisionEvent b
    if fail prov then (b, w, .error (.collaborator prov))
    else
      let h := w.nextId
      let w1 : World :=
        { w with nextId := w.nextId + 1, trace := w.trace ++ [prov] }
      let b1 : Builder := { b with lambda := some h }
      match emitAll fail (fragEvents b1) w1 with
      | (w2, .error e) => (b1, w2, .error e)
      | (w2, .ok ()) =>
        match b1.method?, b1.path? with
        | some m, some p =>
          if m ≠ "" && p ≠ "" then
            let aw := getOrCreateSharedApi b1 w2
            let r : Event := .registerRoute aw.1 m p b1.resourceName
            if fail r then (b1, aw.2, .error (.collaborator r))
            else
              ({ b1 with isBuilt := true },
               { aw.2 with trace := aw.2.trace ++ [r] },
               .ok (some h))
          else ({ b1 with isBuilt := true }, w2, .ok (some h))
        | _, _ => ({ b1 with isBuilt := true }, w2, .ok (some h))

/-- `n + 1` successive `build()` calls with no collaborator failures,
threading the builder and world state. -/
def buildIter : Nat → Builder → World →
    Builder × World × Except BuildError (Option Nat)
  | 0, b, w => build noFail b w
  | n + 1, b, w =>
    let r := build noFail b w
    buildIter n r.1 r.2.1

/-- Whether an event is a `provisionPrimaryResource` call. -/
def Event.isProvision : Event → Bool
  | .provisionPrimaryResource _ _ => true
  | _ => false

/-- Number of `provisionPrimaryResource` calls in a trace. -/
def countProvision (tr : List Event) : Nat :=
  (tr.filter Event.isProvision).length

/-- The public calls that can be made on a (proxied) builder instance.  The
five routing methods `get`/`post`/`put`/`patch`/`delete` differ only in the
hard-coded verb and are modelled uniformly by `route`.  Chainable
configuration setters all return `this`. -/
inductive Call where
  | name (s : String)
  | environment (kvs : List (String × String))
  | route (method path : String)
  | addSnsTrigger (arn : String)
  | addSqsTrigger (arn : String)
  | addS3Trigger (arn : String)
  | addPolicy (arn : String)
  | addTablePermissions (arn : String)
  | addEventBridgeRuleTrigger (descriptor : String)
  | addMSKTrigger (descriptor : String)
  | addSMKTrigger (descriptor : String)
  | addDynamoStreamsTrigger (arn : String)
  | build
  | getLambda
deriving DecidableEq, Repr

/-- Whether a call is a chainable configuration setter (returns `this`). -/
def Call.isChainable : Call → Bool
  | .build => false
  | .getLambda => false
  | _ => true

/-- The state update performed by the original (un-proxied) body of each
chainable configuration method.  `build` and `getLambda` perform no direct
state update of their own and are identities here; `dispatch` handles them
separately. -/
def applyCall : Call → Builder → Builder
  | .name s, b => { b with resourceName := s }
  | .environment kvs, b =>
    { b with environmentVars := mergeEnv b.environmentVars kvs }
  | .route m p, b => { b with method? := some m, path? := some p }
  | .addSnsTrigger a, b => { b with snsConfigs := b.snsConfigs ++ [a] }
  | .addSqsTrigger a, b => { b with sqsConfigs := b.sqsConfigs ++ [a] }
  | .addS3Trigger a, b => { b with s3Configs := b.s3Configs ++ [a] }
  | .addPolicy a, b => { b with policyConfigs := b.policyConfigs ++ [a] }
  | .addTablePermissions a, b => { b with tableArns := b.tableArns ++ [a] }
  | .addEventBridgeRuleTrigger d, b =>
    { b with eventBridgeRuleConfigs := b.eventBridgeRuleConfigs ++ [d] }
  | .addMSKTrigger d, b => { b with mskConfigs := b.mskConfigs ++ [d] }
  | .addSMKTrigger d, b => { b with smkConfigs := b.smkConfigs ++ [d] }
  | .addDynamoStreamsTrigger a, b =>
    { b with dynamoStreamsConfigs := b.dynamoStreamsConfigs ++ [a] }
  | .build, b => b
  | .getLambda, b => b

/-- A builder together with the process-wide world and the queue of
finalizations scheduled with `setTimeout(() => target.build(), 0)` that have
not yet run (`pending` counts them). -/
structure Sys where
  b : Builder
  w : World
  pending : Nat
deriving DecidableEq, Repr

/-- One call dispatched through the constructor's `Proxy`:
`build` passes straight through; `getLambda` on an unbuilt target first
forces `build`; every other (chainable) method runs its original body and —
because it returns `this` — schedules a deferred finalize when the builder
is not yet built.  Source methods invoke siblings on the raw `target`, never
through the proxy, so the `isAutoBuilding` re-entrancy guard never fires for
the top-level chain calls modelled here.  A thrown error is reported
alongside the (retained) mutated state. -/
def dispatch (c : Call) (s : Sys) : Sys × Except BuildError Unit :=
  match c with
  | .build =>
    let r := build noFail s.b s.w
    ({ s with b := r.1, w := r.2.1 }, r.2.2.map fun _ => ())
  | .getLambda =>
    if s.b.isBuilt then (s, .ok ())
    else
      let r := build noFail s.b s.w
      ({ s with b := r.1, w := r.2.1 }, r.2.2.map fun _ => ())
  | c =>
    let b' := applyCall c s.b
    if b'.isBuilt then ({ s with b := b' }, .ok ())
    else ({ s with b := b', pending := s.pending + 1 }, .ok ())

/-- Run a synchronous chain of calls; an exception aborts the remainder of
the chain (but not timers already scheduled). -/
def runChain : List Call → Sys → Sys × Except BuildError Unit
  | [], s => (s, .ok ())
  | c :: cs, s =>
    match dispatch c s with
    | (s', .ok ()) => runChain cs s'
    | (s', .error e) => (s', .error e)

/-- Run one scheduled finalize timer: `target.build()`. -/
def drainStep (s : Sys) : Sys × Except BuildError Unit :=
  let r := build noFail s.b s.w
  ({ b := r.1, w := r.2.1, pending := s.pending - 1 }, r.2.2.map fun _ => ())

/-- Drain `n` scheduled finalize timers after the synchronous chain has
completed.  An error thrown from a timer is reported; the model stops the
drain there (no claim observes the behaviour of later timers after an
uncaught timer error). -/
def drain : Nat → Sys → Sys × Except BuildError Unit
  | 0, s => (s, .ok ())
  | n + 1, s =>
    match drainStep s with
    | (s', .ok ()) => drain n s'
    | (s', .error e) => (s', .error e)

/-- The full lifecycle: run the synchronous chain, then let the event loop
drain every scheduled finalize.  Timers scheduled before a chain error still
run. -/
def runAll (calls : List Call) (s : Sys) : Sys × Except BuildError Unit :=
  match runChain calls s with
  | (s1, .ok ()) => drain s1.pending s1
  | (s1, .error e) => ((drain s1.pending s1).1, .error e)

/-- A fresh builder in a fresh system. -/
def initSys (props : LambdaBuilderProps) (stage : String)
    (defaultEnv : Option (List (String × String))) : Sys :=
  { b := initBuilder props stage defaultEnv, w := initWorld, pending := 0 }

/-- The kinds of configuration fragments, in the order `build()` applies
them. -/
inductive FragKind where
  | sns | sqs | s3 | policy | table | eventRule | msk | smk | dynamo
deriving DecidableEq, Repr

/-- The fragment-recording call for a (kind, descriptor) pair. -/
def fragCall : FragKind × String → Call
  | (.sns, d) => .addSnsTrigger d
  | (.sqs, d) => .addSqsTrigger d
  | (.s3, d) => .addS3Trigger d
  | (.policy, d) => .addPolicy d
  | (.table, d) => .addTablePermissions d
  | (.eventRule, d) => .addEventBridgeRuleTrigger d
  | (.msk, d) => .addMSKTrigger d
  | (.smk, d) => .addSMKTrigger d
  | (.dynamo, d) => .addDynamoStreamsTrigger d

/-- The collaborator call applying a fragment of a given kind. -/
def fragEvent : FragKind × String → Event
  | (.sns, d) => .subscribeSns d
  | (.sqs, d) => .subscribeSqs d
  | (.s3, d) => .subscribeS3 d
  | (.policy, d) => .grantPermission d
  | (.table, d) => .grantTablePermissions d
  | (.eventRule, d) => .scheduleRule d
  | (.msk, d) => .subscribeMsk d
  | (.smk, d) => .subscribeSmk d
  | (.dynamo, d) => .subscribeDynamoStreams d

/-- The fragments of kind `k` among a recorded interleaving, as the
collaborator calls that will apply them, in insertion order. -/
def kindSection (k : FragKind) (ops : List (FragKind × String)) : List Event :=
  (ops.filter fun o => o.1 = k).map fragEvent

/-- A recorded interleaving of fragments rearranged into the fixed kind
order used by `build()` (subscriptions, then grants, then scheduled rules,
then streaming sources), keeping insertion order within each kind. -/
def kindSorted (ops : List (FragKind × String)) : List Event :=
  kindSection .sns ops ++ kindSection .sqs ops ++ kindSection .s3 ops ++
    kindSection .policy ops ++ kindSection .table ops ++
    kindSection .eventRule ops ++ kindSection .msk ops ++
    kindSection .smk ops ++ kindSection .dynamo ops

/-- The effect of the route-registration tail of `build()` on the world when
no collaborator fails: register the route against the shared API (creating
it on first use) when both `method` and `path` are set and non-empty,
otherwise do nothing. -/
def routeWorld (b : Builder) (w : World) : World :=
  match b.method?, b.path? with
  | some m, some p =>
    if m ≠ "" && p ≠ "" then
      let aw := getOrCreateSharedApi b w
      { aw.2 with trace := aw.2.trace ++ [.registerRoute aw.1 m p b.resourceName] }
    else w
  | _, _ => w

/-- Whether an event is a `registerRoute` call. -/
def Event.isRegisterRoute : Event → Bool
  | .registerRoute _ _ _ _ => true
  | _ => false

/-- Whether an event is an SNS topic subscription. -/
def Event.isSnsSubscribe : Event → Bool
  | .subscribeSns _ => true
  | _ => false

/-- Record an interleaving of configuration fragments on a builder, each
through its public recording method. -/
def recordFrags (ops : List (FragKind × String)) (b : Builder) : Builder :=
  ops.foldl (fun b o => applyCall (fragCall o) b) b

/-- The `STAGE` obligation of a single collaborator call: a
`provisionPrimaryResource` call must carry an environment that binds
`"STAGE"`; every other call carries none. -/
def eventEnvOk : Event → Prop
  | .provisionPrimaryResource _ env => (List.lookup "STAGE" env).isSome = true
  | _ => True

/-- Every primary resource materialized so far received an environment
binding `"STAGE"`. -/
def provisionEnvOk (tr : List Event) : Prop := ∀ e ∈ tr, eventEnvOk e

/-- The builder's environment mapping binds `"STAGE"`. -/
def envHasStage (b : Builder) : Prop :=
  (List.lookup "STAGE" b.environmentVars).isSome = true

theorem emitAll_noFail (es : List Event) (w : World) :
    emitAll noFail es w = ({ w with trace := w.trace ++ es }, .ok ()) := by
  induction es generalizing w with
  | nil => simp [emitAll]
  | cons e es ih => simp [emitAll, noFail, ih]

theorem build_built {b : Builder} {w : World} (fail : Event → Bool)
    (hb : b.isBuilt = true) : build fail b w = (b, w, .ok b.lambda) := by
  simp [build, hb]

theorem build_noFail_success {b : Builder} {w : World}
    (hb : b.isBuilt = false) (hp : ¬ b.handlerPath = "") :
    build noFail b w =
      ({ b with lambda := some w.nextId, isBuilt := true },
       routeWorld { b with lambda := some w.nextId }
         { w with nextId := w.nextId + 1,
                  trace := w.trace ++ provisionEvent b :: fragEvents b },
       .ok (some w.nextId)) := by
  cases hm : b.method? with
  | none =>
    simp [build, routeWorld, hb, hp, hm, noFail, emitAll_noFail, fragEvents,
      snsEvents, sqsEvents, s3Events, policyEvents, tableEvents, ruleEvents,
      mskEvents, smkEvents, dynamoEvents]
  | some m =>
    cases hpp : b.path? with
    | none =>
      simp [build, routeWorld, hb, hp, hm, hpp, noFail, emitAll_noFail,
        fragEvents, snsEvents, sqsEvents, s3Events, policyEvents, tableEvents,
        ruleEvents, mskEvents, smkEvents, dynamoEvents]
    | some p =>
      simp [build, routeWorld, hb, hp, hm, hpp, noFail, emitAll_noFail,
        fragEvents, snsEvents, sqsEvents, s3Events, policyEvents, tableEvents,
        ruleEvents, mskEvents, smkEvents, dynamoEvents]
      split <;> rfl

theorem countProvision_append (t1 t2 : List Event) :
    countProvision (t1 ++ t2) = countProvision t1 + countProvision t2 := by
  simp [countProvision, List.filter_append]

theorem countProvision_map_zero {α : Type} (f : α → Event)
    (h : ∀ a, (f a).isProvision = false) (l : List α) :
    countProvision (l.map f) = 0 := by
  induction l with
  | nil => rfl
  | cons a l ih => simpa [countProvision, List.filter, h a] using ih

theorem countProvision_fragEvents (b : Builder) :
    countProvision (fragEvents b) = 0 := by
  simp [fragEvents, countProvision_append, snsEvents, sqsEvents, s3Events,
    policyEvents, tableEvents, ruleEvents, mskEvents, smkEvents, dynamoEvents,
    countProvision_map_zero, Event.isProvision]

theorem countProvision_routeWorld (b : Builder) (w : World) :
    countProvision (routeWorld b w).trace = countProvision w.trace := by
  unfold routeWorld
  rcases b.method? with _ | m
  · rfl
  · rcases b.path? with _ | p
    · rfl
    · dsimp only
      split
      · cases hs : w.sharedApi <;>
          simp [getOrCreateSharedApi, hs, countProvision, List.filter_append,
            Event.isProvision]
      · rfl

theorem lookup_append (k : String) (l1 l2 : List (String × String)) :
    List.lookup k (l1 ++ l2) =
      match List.lookup k l1 with
      | some v => some v
      | none => List.lookup k l2 := by
  induction l1 with
  | nil => simp [List.lookup]
  | cons kv l1 ih =>
    obtain ⟨k', v'⟩ := kv
    by_cases hk : k = k'
    · subst hk
      simp [List.lookup]
    · have hbk : (k == k') = false := by simp [hk]
      simp [List.lookup, hbk, ih]

theorem lookup_mergeEnv_left (k : String) (old new : List (String × String)) :
    List.lookup k (old.map fun kv =>
      match new.lookup kv.1 with
      | some v => (kv.1, v)
      | none => kv) =
    match List.lookup k old with
    | none => none
    | some v =>
      match List.lookup k new with
      | some v' => some v'
      | none => some v := by
  induction old with
  | nil => simp [List.lookup]
  | cons kv old ih =>
    obtain ⟨k', v'⟩ := kv
    by_cases hk : k = k'
    · subst hk
      cases hnew : List.lookup k new <;> simp [List.lookup, hnew, ih]
    · have hbk : (k == k') = false := by simp [hk]
      cases hnew : List.lookup k' new <;> simp [List.lookup, hnew, hbk, ih]

theorem lookup_filter_isNone (k : String) (old new : List (String × String))
    (h : List.lookup k old = none) :
    List.lookup k (new.filter fun kv => (List.lookup kv.1 old).isNone) =
      List.lookup k new := by
  induction new with
  | nil => rfl
  | cons kv new ih =>
    obtain ⟨k', v'⟩ := kv
    by_cases hk : k = k'
    · subst hk
      simp [List.filter_cons, List.lookup, h, ih]
    · have hbk : (k == k') = false := by simp [hk]
      cases hp : (List.lookup k' old).isNone <;>
        simp [List.filter_cons, List.lookup, hbk, hp, ih]

/-- Lookup into a spread-merged environment: a key bound by the new map
takes its new value; any other key keeps its old binding. -/
theorem lookup_mergeEnv (k : String) (old new : List (String × String)) :
    List.lookup k (mergeEnv old new) =
      match List.lookup k new with
      | some v => some v
      | none => List.lookup k old := by
  unfold mergeEnv
  rw [lookup_append, lookup_mergeEnv_left]
  cases ho : List.lookup k old with
  | none =>
    cases hn : List.lookup k new <;>
      simp [lookup_filter_isNone k old new ho, hn]
  | some v => cases hn : List.lookup k new <;> simp [hn]

theorem lookup_mergeEnv_isSome (k : String) (old new : List (String × String))
    (h : (List.lookup k old).isSome = true) :
    (List.lookup k (mergeEnv old new)).isSome = true := by
  rw [lookup_mergeEnv]
  cases hn : List.lookup k new <;> simp [h]

theorem applyCall_isBuilt (c : Call) (b : Builder) :
    (applyCall c b).isBuilt = b.isBuilt := by
  cases c <;> rfl

theorem applyCall_handlerPath (c : Call) (b : Builder) :
    (applyCall c b).handlerPath = b.handlerPath := by
  cases c <;> rfl

theorem dispatch_chainable {c : Call} (s : Sys) (hc : c.isChainable = true)
    (hb : s.b.isBuilt = false) :
    dispatch c s =
      ({ s with b := applyCall c s.b, pending := s.pending + 1 }, .ok ()) := by
  cases c
  case build => simp [Call.isChainable] at hc
  case getLambda => simp [Call.isChainable] at hc
  all_goals simp [dispatch, applyCall_isBuilt, hb]

/-- A synchronous chain of chainable configuration calls on an unbuilt
builder performs the recorded state updates, touches no collaborator, and
schedules one deferred finalize per call. -/
theorem runChain_chainables {cs : List Call} (s : Sys)
    (hc : ∀ c ∈ cs, c.isChainable = true) (hb : s.b.isBuilt = false) :
    runChain cs s =
      ({ s with b := cs.foldl (fun b c => applyCall c b) s.b,
                pending := s.pending + cs.length }, .ok ()) := by
  induction cs generalizing s with
  | nil => simp [runChain]
  | cons c cs ih =>
    have hcc : c.isChainable = true := hc c (by simp)
    simp only [runChain, dispatch_chainable s hcc hb]
    rw [ih _ (fun c hm => hc c (by simp [hm]))
      (by simpa [applyCall_isBuilt] using hb)]
    have harith : s.pending + 1 + cs.length = s.pending + (c :: cs).length := by
      simp
      omega
    simp [harith]

theorem drain_built (n : Nat) (s : Sys) (hb : s.b.isBuilt = true) :
    drain n s = ({ s with pending := s.pending - n }, .ok ()) := by
  induction n generalizing s with
  | zero => simp [drain]
  | succ n ih =>
    rw [drain]
    simp only [drainStep, build_built noFail hb, Except.map]
    rw [ih { b := s.b, w := s.w, pending := s.pending - 1 } hb]
    have harith : s.pending - 1 - n = s.pending - (n + 1) := by omega
    simp [harith]

theorem countProvision_cons (e : Event) (tr : List Event) :
    countProvision (e :: tr) =
      (if e.isProvision then 1 else 0) + countProvision tr := by
  simp only [countProvision, List.filter_cons]
  split <;> simp [Nat.add_comm]

/-- The trace growth of one successful no-failure `build()` from an unbuilt
state: exactly one `provisionPrimaryResource` call is added. -/
theorem countProvision_build_trace {b : Builder} {w : World} :
    countProvision
      (routeWorld { b with lambda := some w.nextId }
        { w with nextId := w.nextId + 1,
                 trace := w.trace ++ provisionEvent b :: fragEvents b }).trace =
    countProvision w.trace + 1 := by
  rw [countProvision_routeWorld]
  simp only [countProvision_append, countProvision_cons, provisionEvent,
    Event.isProvision, countProvision_fragEvents]
  simp

/-- C1: once `build()` has succeeded, the `isBuilt` flag is set and the
handle is cached, so any number of further calls returns the identical
handle with no state change; the first (and only materializing) call adds
exactly one `provisionPrimaryResource` collaborator call to the trace. -/
theorem build_idempotent (b b1 : Builder) (w w1 : World) (h : Option Nat)
    (hb : b.isBuilt = false)
    (hs : build noFail b w = (b1, w1, .ok h)) :
    (∀ n : Nat, buildIter n b w = (b1, w1, .ok h)) ∧
    build noFail b1 w1 = (b1, w1, .ok h) ∧
    countProvision w1.trace = countProvision w.trace + 1 := by
  have hp : ¬ b.handlerPath = "" := by
    intro hp0
    simp [build, hb, hp0] at hs
  rw [build_noFail_success hb hp] at hs
  simp only [Prod.mk.injEq, Except.ok.injEq] at hs
  obtain ⟨hb1, hw1, hh⟩ := hs
  subst hb1
  subst hw1
  subst hh
  have hfix :
      build noFail { b with lambda := some w.nextId, isBuilt := true }
        (routeWorld { b with lambda := some w.nextId }
          { w with nextId := w.nextId + 1,
                   trace := w.trace ++ provisionEvent b :: fragEvents b }) =
      ({ b with lambda := some w.nextId, isBuilt := true },
       routeWorld { b with lambda := some w.nextId }
         { w with nextId := w.nextId + 1,
                  trace := w.trace ++ provisionEvent b :: fragEvents b },
       .ok (some w.nextId)) := build_built noFail rfl
  have hiter : ∀ n : Nat,
      buildIter n { b with lambda := some w.nextId, isBuilt := true }
        (routeWorld { b with lambda := some w.nextId }
          { w with nextId := w.nextId + 1,
                   trace := w.trace ++ provisionEvent b :: fragEvents b }) =
      ({ b with lambda := some w.nextId, isBuilt := true },
       routeWorld { b with lambda := some w.nextId }
         { w with nextId := w.nextId + 1,
                  trace := w.trace ++ provisionEvent b :: fragEvents b },
       .ok (some w.nextId)) := by
    intro n
    induction n with
    | zero => exact hfix
    | succ n ih =>
      simp only [buildIter, hfix]
      exact ih
  refine ⟨?_, hfix, countProvision_build_trace⟩
  intro n
  cases n with
  | zero => exact build_noFail_success hb hp
  | succ n =>
    simp only [buildIter, build_noFail_success hb hp]
    exact hiter n

theorem build_idempotent_witness :
    buildIter 3 (initBuilder ⟨0, "h"⟩ "" none) initWorld =
      ({ scopeId := 0, handlerPath := "h", resourceName := "h",
         environmentVars := [("STAGE", "")], method? := none, path? := none,
         isBuilt := true, lambda := some 0, snsConfigs := [], sqsConfigs := [],
         s3Configs := [], policyConfigs := [], tableArns := [],
         eventBridgeRuleConfigs := [], mskConfigs := [], smkConfigs := [],
         dynamoStreamsConfigs := [] },
       { sharedApi := none, nextId := 1,
         trace := [.provisionPrimaryResource "h" [("STAGE", "")]] },
       .ok (some 0)) ∧
    countProvision
        (World.trace
          { sharedApi := none, nextId := 1,
            trace := [.provisionPrimaryResource "h" [("STAGE", "")]] }) =
      countProvision initWorld.trace + 1 := by
  have h := build_idempotent (initBuilder ⟨0, "h"⟩ "" none)
    { scopeId := 0, handlerPath := "h", resourceName := "h",
      environmentVars := [("STAGE", "")], method? := none, path? := none,
      isBuilt := true, lambda := some 0, snsConfigs := [], sqsConfigs := [],
      s3Configs := [], policyConfigs := [], tableArns := [],
      eventBridgeRuleConfigs := [], mskConfigs := [], smkConfigs := [],
      dynamoStreamsConfigs := [] }
    initWorld
    { sharedApi := none, nextId := 1,
      trace := [.provisionPrimaryResource "h" [("STAGE", "")]] }
    (some 0) (by decide) (by decide)
  exact ⟨h.1 3, h.2.2⟩

/-- C7: `environment` merges the given variables into the existing mapping
(later keys with the same name overwrite earlier ones) and never replaces
the mapping: after setting A:=x then B:=y, both bindings are visible; a
later A:=z overwrites only A; every key other than A and B keeps the
binding it had before the three calls. -/
theorem environment_merge (b : Builder) (A B x y z : String) (hAB : A ≠ B) :
    List.lookup A (applyCall (.environment [(B, y)])
      (applyCall (.environment [(A, x)]) b)).environmentVars = some x ∧
    List.lookup B (applyCall (.environment [(B, y)])
      (applyCall (.environment [(A, x)]) b)).environmentVars = some y ∧
    List.lookup A (applyCall (.environment [(A, z)])
      (applyCall (.environment [(B, y)])
        (applyCall (.environment [(A, x)]) b))).environmentVars = some z ∧
    List.lookup B (applyCall (.environment [(A, z)])
      (applyCall (.environment [(B, y)])
        (applyCall (.environment [(A, x)]) b))).environmentVars = some y ∧
    ∀ k, k ≠ A → k ≠ B →
      List.lookup k (applyCall (.environment [(A, z)])
        (applyCall (.environment [(B, y)])
          (applyCall (.environment [(A, x)]) b))).environmentVars =
      List.lookup k b.environmentVars := by
  have hab : (A == B) = false := by simp [hAB]
  have hba : (B == A) = false := by simp [Ne.symm hAB]
  refine ⟨?_, ?_, ?_, ?_, ?_⟩
  · simp [applyCall, lookup_mergeEnv, List.lookup, hab]
  · simp [applyCall, lookup_mergeEnv, List.lookup]
  · simp [applyCall, lookup_mergeEnv, List.lookup]
  · simp [applyCall, lookup_mergeEnv, List.lookup, hba]
  · intro k hkA hkB
    have hka : (k == A) = false := by simp [hkA]
    have hkb : (k == B) = false := by simp [hkB]
    simp [applyCall, lookup_mergeEnv, List.lookup, hka, hkb]

theorem environment_merge_witness :
    List.lookup "A" (applyCall (.environment [("B", "2")])
      (applyCall (.environment [("A", "1")])
        (initBuilder ⟨0, "h"⟩ "s" none))).environmentVars = some "1" ∧
    List.lookup "B" (applyCall (.environment [("B", "2")])
      (applyCall (.environment [("A", "1")])
        (initBuilder ⟨0, "h"⟩ "s" none))).environmentVars = some "2" ∧
    List.lookup "A" (applyCall (.environment [("A", "3")])
      (applyCall (.environment [("B", "2")])
        (applyCall (.environment [("A", "1")])
          (initBuilder ⟨0, "h"⟩ "s" none)))).environmentVars = some "3" ∧
    List.lookup "B" (applyCall (.environment [("A", "3")])
      (applyCall (.environment [("B", "2")])
        (applyCall (.environment [("A", "1")])
          (initBuilder ⟨0, "h"⟩ "s" none)))).environmentVars = some "2" ∧
    List.lookup "STAGE" (applyCall (.environment [("A", "3")])
      (applyCall (.environment [("B", "2")])
        (applyCall (.environment [("A", "1")])
          (initBuilder ⟨0, "h"⟩ "s" none)))).environmentVars =
      List.lookup "STAGE" (initBuilder ⟨0, "h"⟩ "s" none).environmentVars := by
  have h := environment_merge (initBuilder ⟨0, "h"⟩ "s" none)
    "A" "B" "1" "2" "3" (by decide)
  exact ⟨h.1, h.2.1, h.2.2.1, h.2.2.2.1,
    h.2.2.2.2 "STAGE" (by decide) (by decide)⟩

/-- C2 counterexample: the module-level `sharedApi` variable is not keyed
by the deployment scope.  Two builders created in distinct scopes (scope
ids 0 and 1) that both request the shared router receive the very same
handle, contradicting the claim that a builder in a different deployment
scope receives a distinct handle. -/
theorem sharedApi_cross_scope_counterexample :
    (initBuilder ⟨0, "h"⟩ "" none).scopeId ≠
      (initBuilder ⟨1, "g"⟩ "" none).scopeId ∧
    (getOrCreateSharedApi (initBuilder ⟨1, "g"⟩ "" none)
        (getOrCreateSharedApi (initBuilder ⟨0, "h"⟩ "" none) initWorld).2).1 =
      (getOrCreateSharedApi (initBuilder ⟨0, "h"⟩ "" none) initWorld).1 := by
  decide

/-- C2 (amended): the shared router handle is a process-wide singleton not
keyed by deployment scope: the first request stores the created handle in
the module-level variable, any request on a populated variable returns the
stored handle with no state change, and therefore every later request — by
any builder, in any deployment scope — returns the same handle. -/
theorem sharedApi_process_singleton (b b' : Builder) (w : World) (a : Nat) :
    (getOrCreateSharedApi b w).2.sharedApi =
      some (getOrCreateSharedApi b w).1 ∧
    (w.sharedApi = some a → getOrCreateSharedApi b w = (a, w)) ∧
    getOrCreateSharedApi b' (getOrCreateSharedApi b w).2 =
      ((getOrCreateSharedApi b w).1, (getOrCreateSharedApi b w).2) := by
  refine ⟨?_, ?_, ?_⟩
  · cases hs : w.sharedApi <;> simp [getOrCreateSharedApi, hs]
  · intro ha
    simp [getOrCreateSharedApi, ha]
  · cases hs : w.sharedApi <;> simp [getOrCreateSharedApi, hs]

theorem sharedApi_process_singleton_witness :
    (getOrCreateSharedApi (initBuilder ⟨0, "h"⟩ "" none)
        { sharedApi := some 7, nextId := 9, trace := [] }).2.sharedApi =
      some (getOrCreateSharedApi (initBuilder ⟨0, "h"⟩ "" none)
        { sharedApi := some 7, nextId := 9, trace := [] }).1 ∧
    getOrCreateSharedApi (initBuilder ⟨0, "h"⟩ "" none)
        { sharedApi := some 7, nextId := 9, trace := [] } =
      (7, { sharedApi := some 7, nextId := 9, trace := [] }) ∧
    getOrCreateSharedApi (initBuilder ⟨1, "g"⟩ "" none)
        (getOrCreateSharedApi (initBuilder ⟨0, "h"⟩ "" none)
          { sharedApi := some 7, nextId := 9, trace := [] }).2 =
      ((getOrCreateSharedApi (initBuilder ⟨0, "h"⟩ "" none)
          { sharedApi := some 7, nextId := 9, trace := [] }).1,
       (getOrCreateSharedApi (initBuilder ⟨0, "h"⟩ "" none)
          { sharedApi := some 7, nextId := 9, trace := [] }).2) := by
  have h := sharedApi_process_singleton (initBuilder ⟨0, "h"⟩ "" none)
    (initBuilder ⟨1, "g"⟩ "" none)
    { sharedApi := some 7, nextId := 9, trace := [] } 7
  exact ⟨h.1, h.2.1 rfl, h.2.2⟩

/-- C6 counterexample: a handler path of `"a/"` derives the empty resource
name, yet the first `build()` raises no configuration error and happily
materializes the primary resource (with the empty name), contradicting the
claim that an empty derived identity fails before materialization. -/
theorem identity_validation_counterexample :
    (initBuilder ⟨0, "a/"⟩ "" none).resourceName = "" ∧
    build noFail (initBuilder ⟨0, "a/"⟩ "" none) initWorld =
      ({ scopeId := 0, handlerPath := "a/", resourceName := "",
         environmentVars := [("STAGE", "")], method? := none, path? := none,
         isBuilt := true, lambda := some 0, snsConfigs := [], sqsConfigs := [],
         s3Configs := [], policyConfigs := [], tableArns := [],
         eventBridgeRuleConfigs := [], mskConfigs := [], smkConfigs := [],
         dynamoStreamsConfigs := [] },
       { sharedApi := none, nextId := 1,
         trace := [.provisionPrimaryResource "" [("STAGE", "")]] },
       .ok (some 0)) := by
  decide

/-- C6 (amended): the configuration check performed before materialization
validates the handler path, not the derived identity: `build()` on an
unbuilt builder fails with the configuration error (and leaves all state
untouched) exactly when the stored handler path is the empty string, and
otherwise (collaborators permitting) materializes the primary resource —
even when the derived resource name is empty. -/
theorem handlerPath_validation (b : Builder) (w : World)
    (hb : b.isBuilt = false) :
    (b.handlerPath = "" →
      build noFail b w = (b, w, .error .handlerPathNotDefined)) ∧
    (¬ b.handlerPath = "" →
      (build noFail b w).2.2 = .ok (some w.nextId) ∧
      countProvision (build noFail b w).2.1.trace =
        countProvision w.trace + 1) := by
  constructor
  · intro hp
    simp [build, hb, hp]
  · intro hp
    rw [build_noFail_success hb hp]
    exact ⟨rfl, countProvision_build_trace⟩

theorem handlerPath_validation_witness :
    build noFail (initBuilder ⟨0, ""⟩ "" none) initWorld =
      (initBuilder ⟨0, ""⟩ "" none, initWorld,
       .error .handlerPathNotDefined) ∧
    (build noFail (initBuilder ⟨0, "h"⟩ "" none) initWorld).2.2 =
      .ok (some 0) := by
  refine ⟨(handlerPath_validation (initBuilder ⟨0, ""⟩ "" none) initWorld
    (by decide)).1 (by decide), ?_⟩
  exact ((handlerPath_validation (initBuilder ⟨0, "h"⟩ "" none) initWorld
    (by decide)).2 (by decide)).1

/-- C8 counterexample: the `name` setter carries no built-guard, so even on
a builder whose `isBuilt` flag is set, dispatching `name("z")` through the
proxy overwrites the identity field, contradicting the claim that no
operation changes the identity once built. -/
theorem identity_mutable_after_build_counterexample :
    ({ scopeId := 0, handlerPath := "h", resourceName := "a",
       environmentVars := [("STAGE", "")], method? := none, path? := none,
       isBuilt := true, lambda := some 0, snsConfigs := [], sqsConfigs := [],
       s3Configs := [], policyConfigs := [], tableArns := [],
       eventBridgeRuleConfigs := [], mskConfigs := [], smkConfigs := [],
       dynamoStreamsConfigs := [] } : Builder).isBuilt = true ∧
    (dispatch (.name "z")
      { b := { scopeId := 0, handlerPath := "h", resourceName := "a",
               environmentVars := [("STAGE", "")], method? := none,
               path? := none, isBuilt := true, lambda := some 0,
               snsConfigs := [], sqsConfigs := [], s3Configs := [],
               policyConfigs := [], tableArns := [],
               eventBridgeRuleConfigs := [], mskConfigs := [],
               smkConfigs := [], dynamoStreamsConfigs := [] },
        w := { sharedApi := none, nextId := 1,
               trace := [.provisionPrimaryResource "a" [("STAGE", "")]] },
        pending := 0 }).1.b.resourceName = "z" ∧
    "z" ≠ "a" := by
  decide

/-- C8 (amended): the identity field stays mutable after `build()` — the
`name` setter still overwrites it, without scheduling anything — but the
change can no longer affect the primary resource: the builder is still
marked built, so a further `build()` returns the cached handle with no
state change and no new collaborator call. -/
theorem name_after_build_no_effect (b b1 : Builder) (w w1 : World)
    (h : Option Nat) (p : Nat) (s : String)
    (hb : b.isBuilt = false)
    (hs : build noFail b w = (b1, w1, .ok h)) :
    (dispatch (.name s) { b := b1, w := w1, pending := p }).1.b.resourceName
      = s ∧
    (dispatch (.name s) { b := b1, w := w1, pending := p }).1.pending = p ∧
    (dispatch (.name s) { b := b1, w := w1, pending := p }).1.w = w1 ∧
    build noFail
        (dispatch (.name s) { b := b1, w := w1, pending := p }).1.b
        (dispatch (.name s) { b := b1, w := w1, pending := p }).1.w =
      ((dispatch (.name s) { b := b1, w := w1, pending := p }).1.b, w1,
       .ok h) := by
  have hp : ¬ b.handlerPath = "" := by
    intro hp0
    simp [build, hb, hp0] at hs
  rw [build_noFail_success hb hp] at hs
  simp only [Prod.mk.injEq, Except.ok.injEq] at hs
  obtain ⟨hb1, hw1, hh⟩ := hs
  subst hb1
  subst hw1
  subst hh
  have hd : dispatch (Call.name s)
      { b := { b with lambda := some w.nextId, isBuilt := true },
        w := routeWorld { b with lambda := some w.nextId }
          { w with nextId := w.nextId + 1,
                   trace := w.trace ++ provisionEvent b :: fragEvents b },
        pending := p } =
      ({ b := { b with resourceName := s, lambda := some w.nextId,
                       isBuilt := true },
         w := routeWorld { b with lambda := some w.nextId }
           { w with nextId := w.nextId + 1,
                    trace := w.trace ++ provisionEvent b :: fragEvents b },
         pending := p }, .ok ()) := by
    simp [dispatch, applyCall]
  rw [hd]
  exact ⟨rfl, rfl, rfl, build_built noFail rfl⟩

theorem name_after_build_no_effect_witness :
    (dispatch (.name "z")
      { b := { scopeId := 0, handlerPath := "h", resourceName := "h",
               environmentVars := [("STAGE", "")], method? := none,
               path? := none, isBuilt := true, lambda := some 0,
               snsConfigs := [], sqsConfigs := [], s3Configs := [],
               policyConfigs := [], tableArns := [],
               eventBridgeRuleConfigs := [], mskConfigs := [],
               smkConfigs := [], dynamoStreamsConfigs := [] },
        w := { sharedApi := none, nextId := 1,
               trace := [.provisionPrimaryResource "h" [("STAGE", "")]] },
        pending := 4 }).1.b.resourceName = "z" ∧
    build noFail
        (dispatch (.name "z")
          { b := { scopeId := 0, handlerPath := "h", resourceName := "h",
                   environmentVars := [("STAGE", "")], method? := none,
                   path? := none, isBuilt := true, lambda := some 0,
                   snsConfigs := [], sqsConfigs := [], s3Configs := [],
                   policyConfigs := [], tableArns := [],
                   eventBridgeRuleConfigs := [], mskConfigs := [],
                   smkConfigs := [], dynamoStreamsConfigs := [] },
            w := { sharedApi := none, nextId := 1,
                   trace := [.provisionPrimaryResource "h" [("STAGE", "")]] },
            pending := 4 }).1.b
        (dispatch (.name "z")
          { b := { scopeId := 0, handlerPath := "h", resourceName := "h",
                   environmentVars := [("STAGE", "")], method? := none,
                   path? := none, isBuilt := true, lambda := some 0,
                   snsConfigs := [], sqsConfigs := [], s3Configs := [],
                   policyConfigs := [], tableArns := [],
                   eventBridgeRuleConfigs := [], mskConfigs := [],
                   smkConfigs := [], dynamoStreamsConfigs := [] },
            w := { sharedApi := none, nextId := 1,
                   trace := [.provisionPrimaryResource "h" [("STAGE", "")]] },
            pending := 4 }).1.w =
      ((dispatch (.name "z")
          { b := { scopeId := 0, handlerPath := "h", resourceName := "h",
                   environmentVars := [("STAGE", "")], method? := none,
                   path? := none, isBuilt := true, lambda := some 0,
                   snsConfigs := [], sqsConfigs := [], s3Configs := [],
                   policyConfigs := [], tableArns := [],
                   eventBridgeRuleConfigs := [], mskConfigs := [],
                   smkConfigs := [], dynamoStreamsConfigs := [] },
            w := { sharedApi := none, nextId := 1,
                   trace := [.provisionPrimaryResource "h" [("STAGE", "")]] },
            pending := 4 }).1.b,
       { sharedApi := none, nextId := 1,
         trace := [.provisionPrimaryResource "h" [("STAGE", "")]] },
       .ok (some 0)) := by
  have h := name_after_build_no_effect (initBuilder ⟨0, "h"⟩ "" none)
    { scopeId := 0, handlerPath := "h", resourceName := "h",
      environmentVars := [("STAGE", "")], method? := none, path? := none,
      isBuilt := true, lambda := some 0, snsConfigs := [], sqsConfigs := [],
      s3Configs := [], policyConfigs := [], tableArns := [],
      eventBridgeRuleConfigs := [], mskConfigs := [], smkConfigs := [],
      dynamoStreamsConfigs := [] }
    initWorld
    { sharedApi := none, nextId := 1,
      trace := [.provisionPrimaryResource "h" [("STAGE", "")]] }
    (some 0) 4 "z" (by decide) (by decide)
  exact ⟨h.1, h.2.2.2⟩

theorem fragEvents_no_provision (b : Builder) :
    ∀ e ∈ fragEvents b, e.isProvision = false := by
  intro e he
  simp only [fragEvents, snsEvents, sqsEvents, s3Events, policyEvents,
    tableEvents, ruleEvents, mskEvents, smkEvents, dynamoEvents,
    List.mem_append] at he
  rcases he with ((((((((h | h) | h) | h) | h) | h) | h) | h) | h) <;>
  · obtain ⟨a, -, rfl⟩ := List.mem_map.mp h
    rfl

theorem emitAll_countProvision (fail : Event → Bool) (es : List Event)
    (w : World) (h : ∀ e ∈ es, e.isProvision = false) :
    countProvision (emitAll fail es w).1.trace = countProvision w.trace := by
  induction es generalizing w with
  | nil => rfl
  | cons e es ih =>
    by_cases hf : fail e
    · simp [emitAll, hf]
    · have he : e.isProvision = false := h e (by simp)
      have := ih { w with trace := w.trace ++ [e] }
        (fun e' he' => h e' (by simp [he']))
      simp only [emitAll, hf, Bool.false_eq_true, if_false] at this ⊢
      rw [this]
      simp [countProvision_append, countProvision, he]

theorem countProvision_getOrCreate (b : Builder) (w : World) :
    countProvision (getOrCreateSharedApi b w).2.trace =
      countProvision w.trace := by
  cases hs : w.sharedApi <;>
    simp [getOrCreateSharedApi, hs, countProvision, List.filter_append,
      Event.isProvision]

theorem build_retry_aux (b : Builder) (w1 : World) (c0 : Nat)
    (hb : b.isBuilt = false) (hp : ¬ b.handlerPath = "")
    (hc : countProvision w1.trace = c0 + 1) :
    (build noFail b w1).2.2 = .ok (some w1.nextId) ∧
    countProvision (build noFail b w1).2.1.trace = c0 + 2 := by
  rw [build_noFail_success hb hp]
  refine ⟨rfl, ?_⟩
  rw [countProvision_build_trace, hc]

/-- C10: `build()` is not atomic on failure.  When a collaborator throws
after the primary resource was provisioned (during fragment application or
route registration), the `isBuilt` flag is still false — it is set only at
the very end — while one `provisionPrimaryResource` call has already been
made; a subsequent `build()` therefore runs the full materialization again
and provisions a second primary resource instead of returning the handle
from the failed attempt. -/
theorem build_not_atomic (b b1 : Builder) (w w1 : World)
    (fail : Event → Bool) (e : Event)
    (hb : b.isBuilt = false) (hp : ¬ b.handlerPath = "")
    (hfp : fail (provisionEvent b) = false)
    (h1 : build fail b w = (b1, w1, .error (.collaborator e))) :
    b1.isBuilt = false ∧
    countProvision w1.trace = countProvision w.trace + 1 ∧
    (build noFail b1 w1).2.2 = .ok (some w1.nextId) ∧
    countProvision (build noFail b1 w1).2.1.trace =
      countProvision w.trace + 2 := by
  simp only [build, hb, Bool.false_eq_true, if_false, hp, hfp] at h1
  have hW1count : countProvision
      ({ w with nextId := w.nextId + 1,
                trace := w.trace ++ [provisionEvent b] } : World).trace =
      countProvision w.trace + 1 := by
    simp [countProvision_append, countProvision, provisionEvent,
      Event.isProvision]
  rcases hem : emitAll fail
      (fragEvents { b with isBuilt := false, lambda := some w.nextId })
      { w with nextId := w.nextId + 1, trace := w.trace ++ [provisionEvent b] }
    with ⟨w2, r2⟩
  have hw2count : countProvision w2.trace = countProvision w.trace + 1 := by
    have := emitAll_countProvision fail
      (fragEvents { b with isBuilt := false, lambda := some w.nextId })
      { w with nextId := w.nextId + 1, trace := w.trace ++ [provisionEvent b] }
      (fragEvents_no_provision _)
    rw [hem] at this
    rw [this, hW1count]
  rw [hem] at h1
  cases r2 with
  | error e2 =>
    simp only [Prod.mk.injEq, Except.error.injEq] at h1
    obtain ⟨hb1, hw1, -⟩ := h1
    subst hb1
    subst hw1
    refine ⟨rfl, hw2count, ?_, ?_⟩
    · exact (build_retry_aux
        { b with isBuilt := false, lambda := some w.nextId } w2
        (countProvision w.trace) rfl hp hw2count).1
    · exact (build_retry_aux
        { b with isBuilt := false, lambda := some w.nextId } w2
        (countProvision w.trace) rfl hp hw2count).2
  | ok u =>
    cases u
    cases hm : b.method? with
    | none => simp [hm] at h1
    | some m =>
      cases hpp : b.path? with
      | none => simp [hm, hpp] at h1
      | some p =>
        simp only [hm, hpp] at h1
        split at h1
        · split at h1
          · simp only [Prod.mk.injEq, Except.error.injEq] at h1
            obtain ⟨hb1, hw1, -⟩ := h1
            subst hb1
            subst hw1
            have hcg : countProvision
                (getOrCreateSharedApi
                  { b with method? := some m, path? := some p,
                           isBuilt := false, lambda := some w.nextId }
                  w2).2.trace = countProvision w.trace + 1 := by
              rw [countProvision_getOrCreate, hw2count]
            refine ⟨rfl, hcg, ?_, ?_⟩
            · exact (build_retry_aux
                { b with method? := some m, path? := some p,
                         isBuilt := false, lambda := some w.nextId }
                (getOrCreateSharedApi
                  { b with method? := some m, path? := some p,
                           isBuilt := false, lambda := some w.nextId } w2).2
                (countProvision w.trace) rfl hp hcg).1
            · exact (build_retry_aux
                { b with method? := some m, path? := some p,
                         isBuilt := false, lambda := some w.nextId }
                (getOrCreateSharedApi
                  { b with method? := some m, path? := some p,
                           isBuilt := false, lambda := some w.nextId } w2).2
                (countProvision w.trace) rfl hp hcg).2
          · simp at h1
        · simp at h1

theorem build_not_atomic_witness :
    (applyCall (.addSnsTrigger "t")
      (initBuilder ⟨0, "h"⟩ "" none)).isBuilt = false ∧
    countProvision
        (World.trace
          { sharedApi := none, nextId := 1,
            trace := [.provisionPrimaryResource "h" [("STAGE", "")]] }) =
      countProvision initWorld.trace + 1 ∧
    (build noFail
        { scopeId := 0, handlerPath := "h", resourceName := "h",
          environmentVars := [("STAGE", "")], method? := none, path? := none,
          isBuilt := false, lambda := some 0, snsConfigs := ["t"],
          sqsConfigs := [], s3Configs := [], policyConfigs := [],
          tableArns := [], eventBridgeRuleConfigs := [], mskConfigs := [],
          smkConfigs := [], dynamoStreamsConfigs := [] }
        { sharedApi := none, nextId := 1,
          trace := [.provisionPrimaryResource "h" [("STAGE", "")]] }).2.2 =
      .ok (some 1) ∧
    countProvision
        (build noFail
          { scopeId := 0, handlerPath := "h", resourceName := "h",
            environmentVars := [("STAGE", "")], method? := none, path? := none,
            isBuilt := false, lambda := some 0, snsConfigs := ["t"],
            sqsConfigs := [], s3Configs := [], policyConfigs := [],
            tableArns := [], eventBridgeRuleConfigs := [], mskConfigs := [],
            smkConfigs := [], dynamoStreamsConfigs := [] }
          { sharedApi := none, nextId := 1,
            trace := [.provisionPrimaryResource "h" [("STAGE", "")]] }).2.1.trace =
      countProvision initWorld.trace + 2 := by
  have h := build_not_atomic
    (applyCall (.addSnsTrigger "t") (initBuilder ⟨0, "h"⟩ "" none))
    { scopeId := 0, handlerPath := "h", resourceName := "h",
      environmentVars := [("STAGE", "")], method? := none, path? := none,
      isBuilt := false, lambda := some 0, snsConfigs := ["t"],
      sqsConfigs := [], s3Configs := [], policyConfigs := [],
      tableArns := [], eventBridgeRuleConfigs := [], mskConfigs := [],
      smkConfigs := [], dynamoStreamsConfigs := [] }
    initWorld
    { sharedApi := none, nextId := 1,
      trace := [.provisionPrimaryResource "h" [("STAGE", "")]] }
    (fun ev => Event.isSnsSubscribe ev)
    (.subscribeSns "t")
    (by decide) (by decide) (by decide) (by decide)
  exact ⟨by decide, h.2.1, h.2.2.1, h.2.2.2⟩

theorem foldl_applyCall_isBuilt (cs : List Call) (b : Builder) :
    (cs.foldl (fun b c => applyCall c b) b).isBuilt = b.isBuilt := by
  induction cs generalizing b with
  | nil => rfl
  | cons c cs ih => simp [List.foldl_cons, ih, applyCall_isBuilt]

theorem foldl_applyCall_handlerPath (cs : List Call) (b : Builder) :
    (cs.foldl (fun b c => applyCall c b) b).handlerPath = b.handlerPath := by
  induction cs generalizing b with
  | nil => rfl
  | cons c cs ih => simp [List.foldl_cons, ih, applyCall_handlerPath]

theorem drain_unbuilt (n : Nat) (s : Sys)
    (hb : s.b.isBuilt = false) (hp : ¬ s.b.handlerPath = "") :
    (drain (n + 1) s).2 = .ok () ∧
    (drain (n + 1) s).1.b.isBuilt = true ∧
    countProvision (drain (n + 1) s).1.w.trace =
      countProvision s.w.trace + 1 := by
  simp only [drain, drainStep, build_noFail_success hb hp, Except.map]
  rw [drain_built n _ rfl]
  exact ⟨rfl, rfl, countProvision_build_trace⟩

theorem dispatch_schedules_only_chainable_unbuilt (c : Call) (t : Sys)
    (hgt : (dispatch c t).1.pending > t.pending) :
    c.isChainable = true ∧ t.b.isBuilt = false := by
  by_cases hb' : t.b.isBuilt = true
  · exfalso
    cases c <;> simp [dispatch, applyCall_isBuilt, hb'] at hgt
  · have hbf : t.b.isBuilt = false := by simpa using hb'
    refine ⟨?_, hbf⟩
    cases c <;>
      simp [dispatch, applyCall_isBuilt, hbf, Call.isChainable] at hgt ⊢

/-- C3: a synchronous chain of chainable configuration calls with no
explicit `build()` performs no collaborator call itself but schedules one
deferred finalize per call (a finalize is scheduled only by a call that
returns the builder itself while the builder is unbuilt); once the chain
completes and the scheduled timers drain, `build()` runs and exactly one
`provisionPrimaryResource` call is made, the later timers finding the
builder already built. -/
theorem deferred_finalize_once (cs : List Call) (props : LambdaBuilderProps)
    (stage : String) (denv : Option (List (String × String)))
    (hne : cs ≠ []) (hc : ∀ c ∈ cs, c.isChainable = true)
    (hp : ¬ props.handler = "") :
    (runChain cs (initSys props stage denv)).2 = .ok () ∧
    (runChain cs (initSys props stage denv)).1.pending = cs.length ∧
    (runChain cs (initSys props stage denv)).1.b.isBuilt = false ∧
    countProvision (runChain cs (initSys props stage denv)).1.w.trace = 0 ∧
    (runAll cs (initSys props stage denv)).2 = .ok () ∧
    (runAll cs (initSys props stage denv)).1.b.isBuilt = true ∧
    countProvision (runAll cs (initSys props stage denv)).1.w.trace = 1 ∧
    (∀ c t, (dispatch c t).1.pending > t.pending →
      c.isChainable = true ∧ t.b.isBuilt = false) := by
  have hrc := runChain_chainables (initSys props stage denv) hc rfl
  obtain ⟨m, hm⟩ : ∃ m, cs.length = m + 1 := by
    cases cs with
    | nil => exact absurd rfl hne
    | cons c cs => exact ⟨cs.length, rfl⟩
  have hbS1 : (cs.foldl (fun b c => applyCall c b)
      (initSys props stage denv).b).isBuilt = false := by
    rw [foldl_applyCall_isBuilt]
    rfl
  have hpS1 : ¬ (cs.foldl (fun b c => applyCall c b)
      (initSys props stage denv).b).handlerPath = "" := by
    rw [foldl_applyCall_handlerPath]
    exact hp
  have hdrain := drain_unbuilt m
    { b := cs.foldl (fun b c => applyCall c b) (initSys props stage denv).b,
      w := (initSys props stage denv).w,
      pending := (initSys props stage denv).pending + cs.length }
    hbS1 hpS1
  have hra : runAll cs (initSys props stage denv) =
      drain ((initSys props stage denv).pending + cs.length)
        { b := cs.foldl (fun b c => applyCall c b)
            (initSys props stage denv).b,
          w := (initSys props stage denv).w,
          pending := (initSys props stage denv).pending + cs.length } := by
    rw [runAll, hrc]
  rw [hrc, hra]
  have hlen : (initSys props stage denv).pending + cs.length = m + 1 := by
    simp [initSys, hm]
  rw [hlen] at hdrain ⊢
  refine ⟨rfl, hm.symm, hbS1, rfl, hdrain.1, hdrain.2.1, ?_,
    dispatch_schedules_only_chainable_unbuilt⟩
  rw [hdrain.2.2]
  rfl

theorem deferred_finalize_once_witness :
    (runChain [.addSnsTrigger "t", .name "n"]
      (initSys ⟨0, "h"⟩ "" none)).2 = .ok () ∧
    (runChain [.addSnsTrigger "t", .name "n"]
      (initSys ⟨0, "h"⟩ "" none)).1.pending = 2 ∧
    (runChain [.addSnsTrigger "t", .name "n"]
      (initSys ⟨0, "h"⟩ "" none)).1.b.isBuilt = false ∧
    (runAll [.addSnsTrigger "t", .name "n"]
      (initSys ⟨0, "h"⟩ "" none)).2 = .ok () ∧
    (runAll [.addSnsTrigger "t", .name "n"]
      (initSys ⟨0, "h"⟩ "" none)).1.b.isBuilt = true ∧
    countProvision (runAll [.addSnsTrigger "t", .name "n"]
      (initSys ⟨0, "h"⟩ "" none)).1.w.trace = 1 := by
  have h := deferred_finalize_once [.addSnsTrigger "t", .name "n"]
    ⟨0, "h"⟩ "" none (by decide) (by decide) (by decide)
  exact ⟨h.1, h.2.1, h.2.2.1, h.2.2.2.2.1, h.2.2.2.2.2.1, h.2.2.2.2.2.2.1⟩

/-- C4 counterexample: in the scenario — `route("GET","/x")`, two
topic-subscription fragments, one permission grant, no explicit `build()` —
the route registration does not come right after the provisioning call:
`build()` applies all stored fragments first and registers the route last
(lines 1092-1118), so the first subscribe call precedes `registerRoute`,
contradicting the claimed relative order (provision, registerRoute,
subscribes, grant). -/
theorem build_scenario_order_counterexample :
    (runAll [.route "GET" "/x", .addSnsTrigger "d1", .addSnsTrigger "d1x",
        .addPolicy "d2"]
      (initSys ⟨0, "src/x"⟩ "" none)).1.w.trace =
      [.provisionPrimaryResource "x" [("STAGE", "")],
       .subscribeSns "d1", .subscribeSns "d1x", .grantPermission "d2",
       .createSharedRouter 0, .registerRoute 1 "GET" "/x" "x"] ∧
    ((runAll [.route "GET" "/x", .addSnsTrigger "d1", .addSnsTrigger "d1x",
        .addPolicy "d2"]
      (initSys ⟨0, "src/x"⟩ "" none)).1.w.trace.findIdx
        Event.isSnsSubscribe = 1) ∧
    ((runAll [.route "GET" "/x", .addSnsTrigger "d1", .addSnsTrigger "d1x",
        .addPolicy "d2"]
      (initSys ⟨0, "src/x"⟩ "" none)).1.w.trace.findIdx
        Event.isRegisterRoute = 5) ∧
    ¬ ((runAll [.route "GET" "/x", .addSnsTrigger "d1", .addSnsTrigger "d1x",
        .addPolicy "d2"]
      (initSys ⟨0, "src/x"⟩ "" none)).1.w.trace.findIdx
          Event.isRegisterRoute <
        (runAll [.route "GET" "/x", .addSnsTrigger "d1", .addSnsTrigger "d1x",
          .addPolicy "d2"]
        (initSys ⟨0, "src/x"⟩ "" none)).1.w.trace.findIdx
          Event.isSnsSubscribe) := by
  decide

/-- C4 (amended): in the scenario of the claim the deferred finalize makes
exactly one `provisionPrimaryResource` call, then the two `subscribe` calls
in insertion order, then the `grantPermission` call, and route registration
comes last (after creating the shared router on first use) — fragment
application precedes route registration, not the other way around. -/
theorem build_scenario_trace :
    (runAll [.route "GET" "/x", .addSnsTrigger "d1", .addSnsTrigger "d1x",
        .addPolicy "d2"]
      (initSys ⟨0, "src/x"⟩ "" none)).1.w.trace =
      [.provisionPrimaryResource "x" [("STAGE", "")],
       .subscribeSns "d1", .subscribeSns "d1x", .grantPermission "d2",
       .createSharedRouter 0, .registerRoute 1 "GET" "/x" "x"] ∧
    countProvision
      (runAll [.route "GET" "/x", .addSnsTrigger "d1", .addSnsTrigger "d1x",
          .addPolicy "d2"]
        (initSys ⟨0, "src/x"⟩ "" none)).1.w.trace = 1 ∧
    (runAll [.route "GET" "/x", .addSnsTrigger "d1", .addSnsTrigger "d1x",
        .addPolicy "d2"]
      (initSys ⟨0, "src/x"⟩ "" none)).2 = .ok () := by
  decide

theorem recordFrags_cons (o : FragKind × String)
    (ops : List (FragKind × String)) (b : Builder) :
    recordFrags (o :: ops) b = recordFrags ops (applyCall (fragCall o) b) :=
  rfl

theorem recordFrags_snsConfigs (ops : List (FragKind × String)) (b : Builder) :
    (recordFrags ops b).snsConfigs =
      b.snsConfigs ++ (ops.filter fun o => o.1 = FragKind.sns).map Prod.snd := by
  induction ops generalizing b with
  | nil => simp [recordFrags]
  | cons o ops ih =>
    obtain ⟨k, d⟩ := o
    rw [recordFrags_cons]
    cases k <;> simp [fragCall, applyCall, ih, List.filter_cons]

theorem recordFrags_sqsConfigs (ops : List (FragKind × String)) (b : Builder) :
    (recordFrags ops b).sqsConfigs =
      b.sqsConfigs ++ (ops.filter fun o => o.1 = FragKind.sqs).map Prod.snd := by
  induction ops generalizing b with
  | nil => simp [recordFrags]
  | cons o ops ih =>
    obtain ⟨k, d⟩ := o
    rw [recordFrags_cons]
    cases k <;> simp [fragCall, applyCall, ih, List.filter_cons]

theorem recordFrags_s3Configs (ops : List (FragKind × String)) (b : Builder) :
    (recordFrags ops b).s3Configs =
      b.s3Configs ++ (ops.filter fun o => o.1 = FragKind.s3).map Prod.snd := by
  induction ops generalizing b with
  | nil => simp [recordFrags]
  | cons o ops ih =>
    obtain ⟨k, d⟩ := o
    rw [recordFrags_cons]
    cases k <;> simp [fragCall, applyCall, ih, List.filter_cons]

theorem recordFrags_policyConfigs (ops : List (FragKind × String))
    (b : Builder) :
    (recordFrags ops b).policyConfigs =
      b.policyConfigs ++
        (ops.filter fun o => o.1 = FragKind.policy).map Prod.snd := by
  induction ops generalizing b with
  | nil => simp [recordFrags]
  | cons o ops ih =>
    obtain ⟨k, d⟩ := o
    rw [recordFrags_cons]
    cases k <;> simp [fragCall, applyCall, ih, List.filter_cons]

theorem recordFrags_tableArns (ops : List (FragKind × String)) (b : Builder) :
    (recordFrags ops b).tableArns =
      b.tableArns ++
        (ops.filter fun o => o.1 = FragKind.table).map Prod.snd := by
  induction ops generalizing b with
  | nil => simp [recordFrags]
  | cons o ops ih =>
    obtain ⟨k, d⟩ := o
    rw [recordFrags_cons]
    cases k <;> simp [fragCall, applyCall, ih, List.filter_cons]

theorem recordFrags_eventBridgeRuleConfigs (ops : List (FragKind × String))
    (b : Builder) :
    (recordFrags ops b).eventBridgeRuleConfigs =
      b.eventBridgeRuleConfigs ++
        (ops.filter fun o => o.1 = FragKind.eventRule).map Prod.snd := by
  induction ops generalizing b with
  | nil => simp [recordFrags]
  | cons o ops ih =>
    obtain ⟨k, d⟩ := o
    rw [recordFrags_cons]
    cases k <;> simp [fragCall, applyCall, ih, List.filter_cons]

theorem recordFrags_mskConfigs (ops : List (FragKind × String)) (b : Builder) :
    (recordFrags ops b).mskConfigs =
      b.mskConfigs ++ (ops.filter fun o => o.1 = FragKind.msk).map Prod.snd := by
  induction ops generalizing b with
  | nil => simp [recordFrags]
  | cons o ops ih =>
    obtain ⟨k, d⟩ := o
    rw [recordFrags_cons]
    cases k <;> simp [fragCall, applyCall, ih, List.filter_cons]

theorem recordFrags_smkConfigs (ops : List (FragKind × String)) (b : Builder) :
    (recordFrags ops b).smkConfigs =
      b.smkConfigs ++ (ops.filter fun o => o.1 = FragKind.smk).map Prod.snd := by
  induction ops generalizing b with
  | nil => simp [recordFrags]
  | cons o ops ih =>
    obtain ⟨k, d⟩ := o
    rw [recordFrags_cons]
    cases k <;> simp [fragCall, applyCall, ih, List.filter_cons]

theorem recordFrags_dynamoStreamsConfigs (ops : List (FragKind × String))
    (b : Builder) :
    (recordFrags ops b).dynamoStreamsConfigs =
      b.dynamoStreamsConfigs ++
        (ops.filter fun o => o.1 = FragKind.dynamo).map Prod.snd := by
  induction ops generalizing b with
  | nil => simp [recordFrags]
  | cons o ops ih =>
    obtain ⟨k, d⟩ := o
    rw [recordFrags_cons]
    cases k <;> simp [fragCall, applyCall, ih, List.filter_cons]

theorem kindSection_map (k : FragKind) (ops : List (FragKind × String)) :
    ((ops.filter fun o => o.1 = k).map Prod.snd).map
      (fun d => fragEvent (k, d)) = kindSection k ops := by
  unfold kindSection
  rw [List.map_map]
  apply List.map_congr_left
  intro o ho
  have hk : o.1 = k := by simpa using (List.mem_filter.mp ho).2
  obtain ⟨k1, d⟩ := o
  cases hk
  rfl

theorem kindSection_sns (ops : List (FragKind × String)) :
    ((ops.filter fun o => o.1 = FragKind.sns).map Prod.snd).map
      Event.subscribeSns = kindSection FragKind.sns ops :=
  kindSection_map FragKind.sns ops

theorem kindSection_sqs (ops : List (FragKind × String)) :
    ((ops.filter fun o => o.1 = FragKind.sqs).map Prod.snd).map
      Event.subscribeSqs = kindSection FragKind.sqs ops :=
  kindSection_map FragKind.sqs ops

theorem kindSection_s3 (ops : List (FragKind × String)) :
    ((ops.filter fun o => o.1 = FragKind.s3).map Prod.snd).map
      Event.subscribeS3 = kindSection FragKind.s3 ops :=
  kindSection_map FragKind.s3 ops

theorem kindSection_policy (ops : List (FragKind × String)) :
    ((ops.filter fun o => o.1 = FragKind.policy).map Prod.snd).map
      Event.grantPermission = kindSection FragKind.policy ops :=
  kindSection_map FragKind.policy ops

theorem kindSection_table (ops : List (FragKind × String)) :
    ((ops.filter fun o => o.1 = FragKind.table).map Prod.snd).map
      Event.grantTablePermissions = kindSection FragKind.table ops :=
  kindSection_map FragKind.table ops

theorem kindSection_rule (ops : List (FragKind × String)) :
    ((ops.filter fun o => o.1 = FragKind.eventRule).map Prod.snd).map
      Event.scheduleRule = kindSection FragKind.eventRule ops :=
  kindSection_map FragKind.eventRule ops

theorem kindSection_msk (ops : List (FragKind × String)) :
    ((ops.filter fun o => o.1 = FragKind.msk).map Prod.snd).map
      Event.subscribeMsk = kindSection FragKind.msk ops :=
  kindSection_map FragKind.msk ops

theorem kindSection_smk (ops : List (FragKind × String)) :
    ((ops.filter fun o => o.1 = FragKind.smk).map Prod.snd).map
      Event.subscribeSmk = kindSection FragKind.smk ops :=
  kindSection_map FragKind.smk ops

theorem kindSection_dynamo (ops : List (FragKind × String)) :
    ((ops.filter fun o => o.1 = FragKind.dynamo).map Prod.snd).map
      Event.subscribeDynamoStreams = kindSection FragKind.dynamo ops :=
  kindSection_map FragKind.dynamo ops

theorem recordFrags_isBuilt (ops : List (FragKind × String)) (b : Builder) :
    (recordFrags ops b).isBuilt = b.isBuilt := by
  induction ops generalizing b with
  | nil => rfl
  | cons o ops ih =>
    rw [recordFrags_cons, ih, applyCall_isBuilt]

theorem recordFrags_handlerPath (ops : List (FragKind × String))
    (b : Builder) :
    (recordFrags ops b).handlerPath = b.handlerPath := by
  induction ops generalizing b with
  | nil => rfl
  | cons o ops ih =>
    rw [recordFrags_cons, ih, applyCall_handlerPath]

theorem applyCall_fragCall_method (o : FragKind × String) (b : Builder) :
    (applyCall (fragCall o) b).method? = b.method? := by
  obtain ⟨k, d⟩ := o
  cases k <;> rfl

theorem recordFrags_method (ops : List (FragKind × String)) (b : Builder) :
    (recordFrags ops b).method? = b.method? := by
  induction ops generalizing b with
  | nil => rfl
  | cons o ops ih =>
    rw [recordFrags_cons, ih, applyCall_fragCall_method]

theorem routeWorld_none (b : Builder) (w : World) (h : b.method? = none) :
    routeWorld b w = w := by
  simp [routeWorld, h]

/-- C5: fragment application is a stable kind-sort of the recorded
interleaving.  For every interleaving of recording calls across kinds, the
fragment-application collaborator calls of `build()` follow the fixed kind
order of the source (SNS, SQS and S3 subscriptions, then permission grants
and table grants, then scheduled rules, then the MSK/SMK/DynamoDB streaming
sources), with fragments of the same kind applied in insertion order; on a
routeless builder the whole trace of a successful `build()` is the
provisioning call followed by exactly that kind-sorted sequence. -/
theorem fragment_kind_order (ops : List (FragKind × String))
    (props : LambdaBuilderProps) (stage : String)
    (denv : Option (List (String × String))) (w : World)
    (hp : ¬ props.handler = "") :
    fragEvents (recordFrags ops (initBuilder props stage denv)) =
      kindSorted ops ∧
    (build noFail (recordFrags ops (initBuilder props stage denv))
        w).2.1.trace =
      w.trace ++
        provisionEvent (recordFrags ops (initBuilder props stage denv)) ::
          kindSorted ops ∧
    (build noFail (recordFrags ops (initBuilder props stage denv)) w).2.2 =
      .ok (some w.nextId) := by
  have hfrag : fragEvents (recordFrags ops (initBuilder props stage denv)) =
      kindSorted ops := by
    simp only [fragEvents, snsEvents, sqsEvents, s3Events, policyEvents,
      tableEvents, ruleEvents, mskEvents, smkEvents, dynamoEvents,
      recordFrags_snsConfigs, recordFrags_sqsConfigs, recordFrags_s3Configs,
      recordFrags_policyConfigs, recordFrags_tableArns,
      recordFrags_eventBridgeRuleConfigs, recordFrags_mskConfigs,
      recordFrags_smkConfigs, recordFrags_dynamoStreamsConfigs]
    simp only [initBuilder, List.nil_append]
    rw [kindSection_sns, kindSection_sqs, kindSection_s3, kindSection_policy,
      kindSection_table, kindSection_rule, kindSection_msk, kindSection_smk,
      kindSection_dynamo]
    rfl
  have hbr : (recordFrags ops (initBuilder props stage denv)).isBuilt =
      false := by
    rw [recordFrags_isBuilt]
    rfl
  have hpr : ¬ (recordFrags ops (initBuilder props stage denv)).handlerPath =
      "" := by
    rw [recordFrags_handlerPath]
    exact hp
  have hmn : ({ recordFrags ops (initBuilder props stage denv) with
      lambda := some w.nextId } : Builder).method? = none := by
    show (recordFrags ops (initBuilder props stage denv)).method? = none
    rw [recordFrags_method]
    rfl
  have hfrag2 : fragEvents
      ({ recordFrags ops (initBuilder props stage denv) with
        lambda := some w.nextId } : Builder) = kindSorted ops := hfrag
  refine ⟨hfrag, ?_, ?_⟩
  · rw [build_noFail_success hbr hpr, routeWorld_none _ _ hmn]
    show w.trace ++
        provisionEvent (recordFrags ops (initBuilder props stage denv)) ::
          fragEvents
            ({ recordFrags ops (initBuilder props stage denv) with
              lambda := some w.nextId } : Builder) = _
    rw [hfrag2]
  · rw [build_noFail_success hbr hpr]

theorem fragment_kind_order_witness :
    fragEvents (recordFrags
      [(.policy, "p1"), (.sns, "a"), (.eventRule, "r"), (.sns, "b")]
      (initBuilder ⟨0, "h"⟩ "" none)) =
      kindSorted
        [(.policy, "p1"), (.sns, "a"), (.eventRule, "r"), (.sns, "b")] ∧
    (build noFail (recordFrags
        [(.policy, "p1"), (.sns, "a"), (.eventRule, "r"), (.sns, "b")]
        (initBuilder ⟨0, "h"⟩ "" none)) initWorld).2.1.trace =
      initWorld.trace ++
        provisionEvent (recordFrags
          [(.policy, "p1"), (.sns, "a"), (.eventRule, "r"), (.sns, "b")]
          (initBuilder ⟨0, "h"⟩ "" none)) ::
          kindSorted
            [(.policy, "p1"), (.sns, "a"), (.eventRule, "r"), (.sns, "b")] := by
  have h := fragment_kind_order
    [(.policy, "p1"), (.sns, "a"), (.eventRule, "r"), (.sns, "b")]
    ⟨0, "h"⟩ "" none initWorld (by decide)
  exact ⟨h.1, h.2.1⟩

theorem eventEnvOk_of_not_provision {e : Event} (h : e.isProvision = false) :
    eventEnvOk e := by
  cases e <;> simp_all [eventEnvOk, Event.isProvision]

theorem applyCall_envHasStage (c : Call) (b : Builder) (h : envHasStage b) :
    envHasStage (applyCall c b) := by
  cases c <;> try exact h
  case environment kvs =>
    show (List.lookup "STAGE" (mergeEnv b.environmentVars kvs)).isSome = true
    exact lookup_mergeEnv_isSome "STAGE" b.environmentVars kvs h

theorem provisionEnvOk_routeWorld (b : Builder) (w : World)
    (hw : provisionEnvOk w.trace) :
    provisionEnvOk (routeWorld b w).trace := by
  unfold routeWorld
  rcases b.method? with _ | m
  · exact hw
  · rcases b.path? with _ | p
    · exact hw
    · dsimp only
      split
      · intro e he
        cases hs : w.sharedApi with
        | none =>
          simp [getOrCreateSharedApi, hs] at he
          rcases he with he | he | he
          · exact hw e he
          · cases he
            trivial
          · cases he
            trivial
        | some a =>
          simp [getOrCreateSharedApi, hs] at he
          rcases he with he | he
          · exact hw e he
          · cases he
            trivial
      · exact hw

theorem build_noFail_envOk (b : Builder) (w : World)
    (hb : envHasStage b) (hw : provisionEnvOk w.trace) :
    envHasStage (build noFail b w).1 ∧
    provisionEnvOk (build noFail b w).2.1.trace := by
  by_cases hbuilt : b.isBuilt = true
  · rw [build_built noFail hbuilt]
    exact ⟨hb, hw⟩
  · have hbf : b.isBuilt = false := by simpa using hbuilt
    by_cases hp : b.handlerPath = ""
    · simp only [build, hbf, Bool.false_eq_true, if_false, hp, if_pos rfl]
      exact ⟨hb, hw⟩
    · rw [build_noFail_success hbf hp]
      refine ⟨hb, ?_⟩
      apply provisionEnvOk_routeWorld
      intro e he
      simp only [List.mem_append, List.mem_cons] at he
      rcases he with he | he | he
      · exact hw e he
      · cases he
        exact hb
      · exact eventEnvOk_of_not_provision (fragEvents_no_provision _ e he)

theorem dispatch_envOk (c : Call) (t : Sys)
    (hb : envHasStage t.b) (hw : provisionEnvOk t.w.trace) :
    envHasStage (dispatch c t).1.b ∧
    provisionEnvOk (dispatch c t).1.w.trace := by
  cases c
  case build => exact build_noFail_envOk t.b t.w hb hw
  case getLambda =>
    by_cases hib : t.b.isBuilt = true
    · simp only [dispatch, hib, if_pos rfl]
      exact ⟨hb, hw⟩
    · have hibf : t.b.isBuilt = false := by simpa using hib
      simp only [dispatch, hibf, Bool.false_eq_true, if_false]
      exact build_noFail_envOk t.b t.w hb hw
  all_goals
  · simp only [dispatch]
    split <;> exact ⟨applyCall_envHasStage _ _ hb, hw⟩

theorem runChain_envOk (cs : List Call) (t : Sys)
    (hb : envHasStage t.b) (hw : provisionEnvOk t.w.trace) :
    envHasStage (runChain cs t).1.b ∧
    provisionEnvOk (runChain cs t).1.w.trace := by
  induction cs generalizing t with
  | nil => exact ⟨hb, hw⟩
  | cons c cs ih =>
    have h' := dispatch_envOk c t hb hw
    rcases hd : dispatch c t with ⟨t', r⟩
    rw [hd] at h'
    simp only [runChain, hd]
    cases r with
    | ok u =>
      cases u
      exact ih t' h'.1 h'.2
    | error e => exact h'

theorem drain_envOk (n : Nat) (t : Sys)
    (hb : envHasStage t.b) (hw : provisionEnvOk t.w.trace) :
    envHasStage (drain n t).1.b ∧
    provisionEnvOk (drain n t).1.w.trace := by
  induction n generalizing t with
  | zero => exact ⟨hb, hw⟩
  | succ n ih =>
    have h' := build_noFail_envOk t.b t.w hb hw
    rcases hd : build noFail t.b t.w with ⟨b', w', r⟩
    rw [hd] at h'
    simp only [drain, drainStep, hd]
    cases r with
    | ok u =>
      simp only [Except.map]
      exact ih { b := b', w := w', pending := t.pending - 1 } h'.1 h'.2
    | error e =>
      simp only [Except.map]
      exact h'

theorem runAll_envOk (cs : List Call) (t : Sys)
    (hb : envHasStage t.b) (hw : provisionEnvOk t.w.trace) :
    envHasStage (runAll cs t).1.b ∧
    provisionEnvOk (runAll cs t).1.w.trace := by
  have h' := runChain_envOk cs t hb hw
  rcases hrc : runChain cs t with ⟨t1, r⟩
  rw [hrc] at h'
  cases r with
  | ok u =>
    cases u
    simp only [runAll, hrc]
    exact drain_envOk t1.pending t1 h'.1 h'.2
  | error e =>
    simp only [runAll, hrc]
    exact drain_envOk t1.pending t1 h'.1 h'.2

theorem initBuilder_envHasStage (props : LambdaBuilderProps) (stage : String)
    (denv : Option (List (String × String))) :
    envHasStage (initBuilder props stage denv) := by
  show (List.lookup "STAGE"
    (initBuilder props stage denv).environmentVars).isSome = true
  cases denv with
  | none => simp [initBuilder, List.lookup]
  | some es =>
    simp only [initBuilder]
    apply lookup_mergeEnv_isSome
    simp [List.lookup]

/-- C9: the environment mapping of every reachable builder binds the key
`"STAGE"` — it is initialised from the `STAGE` process variable (or the
empty string) at construction and object-spread merges never drop existing
keys — and consequently every primary resource materialized during any
lifecycle receives an environment containing the `STAGE` entry, even when
no `environment` call was ever made. -/
theorem stage_env_invariant (calls : List Call) (props : LambdaBuilderProps)
    (stage : String) (denv : Option (List (String × String))) :
    envHasStage (runAll calls (initSys props stage denv)).1.b ∧
    provisionEnvOk (runAll calls (initSys props stage denv)).1.w.trace := by
  apply runAll_envOk
  · exact initBuilder_envHasStage props stage denv
  · intro e he
    simp [initSys, initWorld] at he

theorem stage_env_invariant_witness :
    (List.lookup "STAGE"
      (runAll [.addSnsTrigger "t"]
        (initSys ⟨0, "h"⟩ "pro" none)).1.b.environmentVars).isSome = true ∧
    (List.lookup "STAGE"
      (List.cons ("STAGE", "pro") List.nil)).isSome = true := by
  have h := stage_env_invariant [.addSnsTrigger "t"] ⟨0, "h"⟩ "pro" none
  exact ⟨h.1, h.2 (.provisionPrimaryResource "h" [("STAGE", "pro")])
    (by decide)⟩

end Cdkless
